import Mathlib

/-!
Verification of the typestate pipeline lifecycle manager of the
`realsense-rust` repository (files `src/config.rs` and `src/pipeline.rs`),
as a shallow embedding in Lean.

Native handles are modelled as `Nat` addresses (0 is the NULL pointer).
Every native call made by the code, and every native destroy call issued by
a destructor, is recorded as an event in a trace (`Ev`), so that claims
about which native calls happen — and how often each handle is destroyed —
become statements about the event list an operation produces.

The native library itself is a mock oracle: each embedded operation takes
the native layer's responses as an explicit argument, exactly in the shape
the code consumes them (an error slot that is empty or filled, a returned
handle, a boolean poll flag, a response per wait call).

Collaborator modules that the repository uses but that are not present in
`src/` (`context.rs`, `error.rs`, `base.rs`, `pipeline_kind.rs`,
`pipeline_profile.rs`) are modelled from the spec; each such definition
carries a doc comment saying so.
-/

namespace RealSense

/-- A native handle, tagged by the kind of native object it addresses
(session/context, pipeline, configuration, profile). The address is a `Nat`;
handles of different kinds are distinct values by construction, mirroring
the distinct opaque pointer types `rs2_context`, `rs2_pipeline`,
`rs2_config`, `rs2_pipeline_profile` of the native call surface. -/
inductive Handle where
  | pipeline (addr : Nat)
  | context (addr : Nat)
  | config (addr : Nat)
  | profile (addr : Nat)
deriving DecidableEq, Repr

/-- Modelled from the spec: `error.rs` is not under `src/`. Section 7 of the
spec gives the error taxonomy consumed by the pipeline code: `Timeout` (the
code matches `RsError::Timeout(..)`, so it carries a payload, modelled as a
`Nat` diagnostic token) and `NativeCallError` with a native diagnostic. -/
inductive RsError where
  | timeout (diag : Nat)
  | nativeCall (diag : Nat)
deriving DecidableEq, Repr

/-- One observable native-layer event: a call into the native library, or a
destroy call issued for a handle (`rs2_delete_pipeline`,
`rs2_delete_context`, `rs2_delete_config`, profile destroy). -/
inductive Ev where
  | callStartWithConfig (pipeline config : Nat)
  | callStart (pipeline : Nat)
  | callStop (pipeline : Nat)
  | callWait (pipeline timeoutMs : Nat)
  | callPoll (pipeline : Nat)
  | destroy (h : Handle)
deriving DecidableEq, Repr

/-- A time span; only its millisecond count is relevant to the embedded
code (`Duration::as_millis`), so sub-millisecond granularity is elided. -/
structure Duration where
  millis : Nat
deriving DecidableEq, Repr

/-- Mirrors `Duration::as_millis()`. -/
def Duration.as_millis (d : Duration) : Nat := d.millis

/-- The truncating Rust cast `as c_uint` (32-bit unsigned). -/
def c_uint_of (n : Nat) : Nat := n % 2 ^ 32

/-- Modelled from the spec: the generated `realsense-sys` binding constant
`RS2_DEFAULT_TIMEOUT` is not under `src/` (only `build.rs` is). The native
library's default wait bound, in milliseconds. -/
def RS2_DEFAULT_TIMEOUT : Nat := 15000

/-- Modelled from the spec: `base.rs` (`DEFAULT_TIMEOUT`) is not under
`src/`. The spec's "default bound (`DEFAULT_TIMEOUT`)" passed to the native
wait when no timeout is requested; it is the wrapped library's default
timeout expressed as a `Duration`. -/
def DEFAULT_TIMEOUT : Duration := ⟨RS2_DEFAULT_TIMEOUT⟩

/-- `Config` (`src/config.rs`): owns one native configuration handle
(`ptr: NonNull<sys::rs2_config>`). -/
structure Config where
  ptr : Nat
deriving DecidableEq, Repr

/-- `Config::into_raw` (`config.rs` lines 88-92): reads the pointer,
`mem::forget(self)` neutralizes the destructor, and the raw address is
returned. The event component is the (empty) list of native calls it makes:
no destroy is issued. -/
def Config.into_raw (c : Config) : Nat × List Ev :=
  (c.ptr, [])

/-- `Config::from_raw` (`config.rs` lines 94-98): wraps the raw pointer via
`NonNull::new(ptr).unwrap()`. `NonNull::new` returns `None` for the null
pointer, so `unwrap` panics there; the panic is modelled as `none`. For a
non-null address the handle is wrapped with no further validation. -/
def Config.from_raw (ptr : Nat) : Option Config :=
  if ptr = 0 then none else some ⟨ptr⟩

/-- `Config::unsafe_clone` (`config.rs` lines 100-102): non-owning shallow
copy of the handle, used only for ownership-transfer bookkeeping. -/
def Config.unsafe_clone (c : Config) : Config := ⟨c.ptr⟩

/-- `Drop for Config` (`config.rs` lines 105-111): issues
`rs2_delete_config` on the owned handle. -/
def Config.dropEvents (c : Config) : List Ev :=
  [.destroy (.config c.ptr)]

/-- Modelled from the spec: `context.rs` is not under `src/`. Per section 3
of the spec, `Context` owns one native session handle with the same
raw/into_raw/from_raw transfer contract as `Config`. -/
structure Context where
  ptr : Nat
deriving DecidableEq, Repr

/-- Modelled from the spec: `Context::unsafe_clone`, the same non-owning
shallow copy as `Config::unsafe_clone` (used by
`Pipeline::into_raw_parts`). -/
def Context.unsafe_clone (c : Context) : Context := ⟨c.ptr⟩

/-- Modelled from the spec: `Context::into_raw`, same contract as
`Config::into_raw` — hand out the raw address, destructor neutralized, no
destroy issued. -/
def Context.into_raw (c : Context) : Nat × List Ev :=
  (c.ptr, [])

/-- Modelled from the spec: `Context::from_raw`, same contract as
`Config::from_raw`. The pipeline code only applies it to addresses taken
out of a live `NonNull` field, which are non-null by invariant, so the
null-unwrap case is elided here and the address is wrapped directly. -/
def Context.from_raw (ptr : Nat) : Context := ⟨ptr⟩

/-- Modelled from the spec: `Drop for Context` destroys the owned session
handle, as every owning wrapper does (spec section 3 ownership invariant). -/
def Context.dropEvents (c : Context) : List Ev :=
  [.destroy (.context c.ptr)]

/-- Modelled from the spec: `pipeline_profile.rs` is not under `src/`. A
`PipelineProfile` owns the profile handle produced by the native start
call; `from_raw` wraps a raw profile address. -/
structure PipelineProfile where
  ptr : Nat
deriving DecidableEq, Repr

/-- Modelled from the spec: `PipelineProfile::from_raw`, wrapping the raw
profile handle returned by `rs2_pipeline_start(_with_config)`. -/
def PipelineProfile.from_raw (ptr : Nat) : PipelineProfile := ⟨ptr⟩

/-- Modelled from the spec: dropping a `PipelineProfile` destroys the
profile handle (spec: `stop` "explicitly destroys the profile"). -/
def PipelineProfile.dropEvents (p : PipelineProfile) : List Ev :=
  [.destroy (.profile p.ptr)]

/-- The `pipeline_kind::Active` state record (spec section 3): owns a
profile handle and optionally the `Config` supplied at start time. The
`Inactive` state has no fields, so `Pipeline<Inactive>` and
`Pipeline<Active>` are embedded as the two structures below. -/
structure Active where
  profile : PipelineProfile
  config : Option Config
deriving DecidableEq, Repr

/-- Modelled from the spec: `pipeline_kind::Active::into_raw_parts`
(mirrors the decompose operation of spec section 9), yielding the raw
profile address and the optional raw config address without running
destructors. -/
def Active.into_raw_parts (a : Active) : Nat × Option Nat :=
  (a.profile.ptr, a.config.map Config.ptr)

/-- Modelled from the spec: `pipeline_kind::Active::from_raw_parts`, the
compose operation re-wrapping a raw profile address and optional raw config
address as an owned `Active` state (used by `ActivePipeline::stop`). -/
def Active.from_raw_parts (profile_ptr : Nat) (config_ptr : Option Nat) : Active :=
  ⟨PipelineProfile.from_raw profile_ptr, config_ptr.map Config.mk⟩

/-- Structural drop of the `Active` state: the profile field's destructor,
then the optional config field's destructor (`Drop for Config`). -/
def Active.dropEvents (a : Active) : List Ev :=
  a.profile.dropEvents ++ (a.config.map Config.dropEvents).getD []

/-- `Pipeline<Inactive>` (`pipeline.rs` lines 16-28): owns the native
pipeline handle and a `Context`; the `Inactive` state has no extra
fields. -/
structure InactivePipeline where
  ptr : Nat
  context : Context
deriving DecidableEq, Repr

/-- `Pipeline<Active>`: the same owned pipeline handle and context,
plus the `Active` state fields. -/
structure ActivePipeline where
  ptr : Nat
  context : Context
  state : Active
deriving DecidableEq, Repr

/-- `Drop for Pipeline<State>` (`pipeline.rs` lines 288-297) on an inactive
pipeline: `rs2_delete_pipeline` on the pipeline handle, then the structural
teardown of the `context` field. -/
def InactivePipeline.dropEvents (pl : InactivePipeline) : List Ev :=
  .destroy (.pipeline pl.ptr) :: pl.context.dropEvents

/-- `Drop for Pipeline<State>` on an active pipeline:
`rs2_delete_pipeline`, then structural teardown of the `context` and
`state` fields. -/
def ActivePipeline.dropEvents (pl : ActivePipeline) : List Ev :=
  .destroy (.pipeline pl.ptr) :: (pl.context.dropEvents ++ pl.state.dropEvents)

/-- `InactivePipeline::into_raw_parts` (`pipeline.rs` lines 144-150): takes
the pipeline address and, via `unsafe_clone().into_raw()`, the context
address; `mem::forget(self)` suppresses the destructor, so no destroy is
issued. -/
def InactivePipeline.into_raw_parts (pl : InactivePipeline) : Nat × Nat :=
  (pl.ptr, (pl.context.unsafe_clone.into_raw).1)

/-- `ActivePipeline::into_raw_parts` (`pipeline.rs` lines 271-285): pipeline
address, context address, and the raw parts of the `Active` state, with the
destructor suppressed by `mem::forget`. -/
def ActivePipeline.into_raw_parts (pl : ActivePipeline) :
    Nat × Nat × Nat × Option Nat :=
  let context := (pl.context.unsafe_clone.into_raw).1
  let parts := pl.state.into_raw_parts
  (pl.ptr, context, parts.1, parts.2)

/-- The mock native layer for pipeline start: the responses of
`rs2_pipeline_start_with_config` and `rs2_pipeline_start` as functions of
the raw arguments the code passes. A response is the returned profile
address, or the error the checker reads from the error slot. -/
structure StartOracle where
  start_with_config : Nat → Nat → Except RsError Nat
  start : Nat → Except RsError Nat

/-- `InactivePipeline::start` (`pipeline.rs` lines 59-90). Depending on
`config` it calls the with-config or the plain native start and checks the
error slot. On failure, `checker.check()?` returns the error and `config`
and `self` are dropped, running their destructors. On success the returned
profile address is wrapped, `self` is decomposed by `into_raw_parts`, and
an active pipeline is rebuilt around the same pipeline and context
addresses, owning the profile and the supplied config. -/
def InactivePipeline.start (self : InactivePipeline) (config : Option Config)
    (native : StartOracle) : Except RsError ActivePipeline × List Ev :=
  match config with
  | some conf =>
    match native.start_with_config self.ptr conf.ptr with
    | .error e =>
      (.error e,
        .callStartWithConfig self.ptr conf.ptr ::
          (conf.dropEvents ++ self.dropEvents))
    | .ok profile_ptr =>
      let profile := PipelineProfile.from_raw profile_ptr
      let parts := self.into_raw_parts
      (.ok { ptr := parts.1, context := Context.from_raw parts.2,
             state := { profile := profile, config := config } },
        [.callStartWithConfig self.ptr conf.ptr])
  | none =>
    match native.start self.ptr with
    | .error e =>
      (.error e, .callStart self.ptr :: self.dropEvents)
    | .ok profile_ptr =>
      let profile := PipelineProfile.from_raw profile_ptr
      let parts := self.into_raw_parts
      (.ok { ptr := parts.1, context := Context.from_raw parts.2,
             state := { profile := profile, config := none } },
        [.callStart self.ptr])

/-- `InactivePipeline::start_async` (`pipeline.rs` lines 93-142). The raw
pipeline and config addresses are captured (`AtomicPtr`), a spawned closure
performs the same native call and error check as `start` and sends the
resulting profile address (or error) through a one-shot channel; the
awaiting side propagates an error with `?` (dropping `config` and `self`)
or rebuilds the active pipeline from `into_raw_parts` exactly as `start`
does. The thread/channel mechanics carry no further semantics here: the
sent value is consumed directly. -/
def InactivePipeline.start_async (self : InactivePipeline)
    (config : Option Config) (native : StartOracle) :
    Except RsError ActivePipeline × List Ev :=
  let pipeline_ptr := self.ptr
  let config_ptr_opt := config.map Config.ptr
  let sent : Except RsError Nat × List Ev :=
    match config_ptr_opt with
    | some config_ptr =>
      (native.start_with_config pipeline_ptr config_ptr,
        [.callStartWithConfig pipeline_ptr config_ptr])
    | none =>
      (native.start pipeline_ptr, [.callStart pipeline_ptr])
  match sent.1 with
  | .error e =>
    (.error e,
      sent.2 ++ ((config.map Config.dropEvents).getD [] ++ self.dropEvents))
  | .ok profile_ptr =>
    let profile := PipelineProfile.from_raw profile_ptr
    let parts := self.into_raw_parts
    (.ok { ptr := parts.1, context := Context.from_raw parts.2,
           state := { profile := profile, config := config } },
      sent.2)

/-- One response of the native `rs2_pipeline_wait_for_frames` call: the
frame address it returns and the content of the error slot after the call
(`none` when the checker finds the slot empty). -/
structure WaitResp where
  frame : Nat
  err : Option RsError
deriving DecidableEq, Repr

/-- The `loop` body of `ActivePipeline::wait` (`pipeline.rs` lines
163-183), iterated over the mock native layer's per-call responses. Each
iteration calls `rs2_pipeline_wait_for_frames(ptr, timeout_ms, ..)` and
matches `(timeout, checker.check())`: the pair `(None, Err(Timeout(..)))`
means `continue`; any other error is surfaced by `result?`; otherwise the
returned frame address is wrapped and the loop breaks. A run that exhausts
the response list is still looping, modelled as `none`. -/
def waitLoop (pipeline_ptr : Nat) (timeout : Option Duration)
    (timeout_ms : Nat) : List WaitResp → Option (Except RsError Nat) × List Ev
  | [] => (none, [])
  | resp :: rest =>
    match timeout, resp.err with
    | none, some (RsError.timeout _) =>
      let r := waitLoop pipeline_ptr timeout timeout_ms rest
      (r.1, .callWait pipeline_ptr timeout_ms :: r.2)
    | _, some e =>
      (some (.error e), [.callWait pipeline_ptr timeout_ms])
    | _, none =>
      (some (.ok resp.frame), [.callWait pipeline_ptr timeout_ms])

/-- `ActivePipeline::wait` (`pipeline.rs` lines 160-186):
`timeout_ms = timeout.unwrap_or(DEFAULT_TIMEOUT).as_millis() as c_uint`,
then the retry loop above. The result is the frame address (ownership
moves to the caller) or the surfaced error. -/
def ActivePipeline.wait (self : ActivePipeline) (timeout : Option Duration)
    (native : List WaitResp) : Option (Except RsError Nat) × List Ev :=
  let timeout_ms := c_uint_of (timeout.getD DEFAULT_TIMEOUT).as_millis
  waitLoop self.ptr timeout timeout_ms native

/-- One response of the native `rs2_pipeline_poll_for_frames` call: the
error slot content, the returned `c_int` flag, and the frame address the
native call wrote into the out-parameter (read only when the flag is
nonzero). -/
structure PollResp where
  err : Option RsError
  ret : Int
  frame : Nat
deriving DecidableEq, Repr

/-- `ActivePipeline::try_wait` (`pipeline.rs` lines 192-213): one call to
`rs2_pipeline_poll_for_frames`; a checker error is returned as-is;
otherwise a nonzero flag yields `Ok(Some(frame))` and a zero flag yields
`Ok(None)`. -/
def ActivePipeline.try_wait (self : ActivePipeline) (native : PollResp) :
    Except RsError (Option Nat) × List Ev :=
  (match native.err with
   | some e => .error e
   | none => if native.ret ≠ 0 then .ok (some native.frame) else .ok none,
   [.callPoll self.ptr])

/-- The spawned `loop` of `ActivePipeline::wait_async` (`pipeline.rs` lines
225-237): same native call, and the same match on
`(timeout, checker.check())` — `(None, Err(Timeout(..)))` continues, any
other pair becomes `result.map(|_| Frame::from_raw(ptr))` and breaks. -/
def waitAsyncLoop (pipeline_ptr : Nat) (timeout : Option Duration)
    (timeout_ms : Nat) : List WaitResp → Option (Except RsError Nat) × List Ev
  | [] => (none, [])
  | resp :: rest =>
    match timeout, resp.err with
    | none, some (RsError.timeout _) =>
      let r := waitAsyncLoop pipeline_ptr timeout timeout_ms rest
      (r.1, .callWait pipeline_ptr timeout_ms :: r.2)
    | _, some e =>
      (some (.error e), [.callWait pipeline_ptr timeout_ms])
    | _, none =>
      (some (.ok resp.frame), [.callWait pipeline_ptr timeout_ms])

/-- `ActivePipeline::wait_async` (`pipeline.rs` lines 216-244):
`timeout_ms = timeout.map(|d| d.as_millis() as c_uint)
                     .unwrap_or(RS2_DEFAULT_TIMEOUT as c_uint)`;
the raw pipeline address is captured, the spawned thread runs the loop and
sends its result through a one-shot channel, and the awaiting side
propagates it with `?`. The thread/channel mechanics carry no further
semantics: the sent value is consumed directly. -/
def ActivePipeline.wait_async (self : ActivePipeline)
    (timeout : Option Duration) (native : List WaitResp) :
    Option (Except RsError Nat) × List Ev :=
  let timeout_ms :=
    (timeout.map fun d => c_uint_of d.as_millis).getD (c_uint_of RS2_DEFAULT_TIMEOUT)
  let pipeline_ptr := self.ptr
  waitAsyncLoop pipeline_ptr timeout timeout_ms native

/-- The mock native layer for `rs2_pipeline_stop`: the content of the error
slot after the call, as a function of the pipeline address. -/
def StopOracle : Type := Nat → Option RsError

/-- `ActivePipeline::stop` (`pipeline.rs` lines 249-269): calls
`rs2_pipeline_stop` and checks the slot; on error, `checker.check()?`
returns it and `self` is dropped (its full destructor chain runs). On
success, `self` is decomposed by `into_raw_parts`,
`mem::drop(Active::from_raw_parts(profile_ptr, config_ptr))` destroys the
profile and the optional config, and an inactive pipeline is rebuilt around
the same pipeline and context addresses. -/
def ActivePipeline.stop (self : ActivePipeline) (native : StopOracle) :
    Except RsError InactivePipeline × List Ev :=
  match native self.ptr with
  | some e => (.error e, .callStop self.ptr :: self.dropEvents)
  | none =>
    let parts := self.into_raw_parts
    let dropped := (Active.from_raw_parts parts.2.2.1 parts.2.2.2).dropEvents
    (.ok { ptr := parts.1, context := Context.from_raw parts.2.1 },
      .callStop self.ptr :: dropped)

/-!
A whole-lifetime model for the destroy-exactly-once invariant (spec section
8, first property). A lifecycle of one pipeline value starts from
`Pipeline<Inactive>` and is a sequence of completed start/stop rounds
followed by one of the four possible endings. Each step is interpreted by
the embedded operations above, with a mock native layer that succeeds for
the completed rounds and behaves as the ending dictates.
-/

/-- One completed round: `start` with an optional config handle (the native
start returns profile handle `prof`) followed by a successful `stop`. -/
structure Round where
  cfg : Option Nat
  prof : Nat
deriving DecidableEq, Repr

/-- How a lifecycle ends: drop while inactive; a failing `start` (which
drops everything); a successful `start` followed by a drop while active; or
a successful `start` followed by a failing `stop`. -/
inductive Ending where
  | dropInactive
  | startFail (cfg : Option Nat)
  | startOkDropActive (cfg : Option Nat) (prof : Nat)
  | startOkStopFail (cfg : Option Nat) (prof : Nat)
deriving DecidableEq, Repr

/-- A full lifecycle of one pipeline value. -/
structure Lifecycle where
  rounds : List Round
  ending : Ending
deriving DecidableEq, Repr

/-- A native layer whose start calls succeed with profile handle `prof`. -/
def okStartOracle (prof : Nat) : StartOracle :=
  ⟨fun _ _ => .ok prof, fun _ => .ok prof⟩

/-- A native layer whose start calls fail. -/
def failStartOracle : StartOracle :=
  ⟨fun _ _ => .error (.nativeCall 0), fun _ => .error (.nativeCall 0)⟩

/-- A native layer whose stop call succeeds. -/
def okStopOracle : StopOracle := fun _ => none

/-- A native layer whose stop call fails. -/
def failStopOracle : StopOracle := fun _ => some (.nativeCall 0)

/-- The native events of a lifecycle's ending, starting from an inactive
pipeline, produced by the embedded operations themselves. -/
def runEnding (pl : InactivePipeline) : Ending → List Ev
  | .dropInactive => pl.dropEvents
  | .startFail cfg => (pl.start (cfg.map Config.mk) failStartOracle).2
  | .startOkDropActive cfg prof =>
    match pl.start (cfg.map Config.mk) (okStartOracle prof) with
    | (.ok act, evs) => evs ++ act.dropEvents
    | (.error _, evs) => evs
  | .startOkStopFail cfg prof =>
    match pl.start (cfg.map Config.mk) (okStartOracle prof) with
    | (.ok act, evs) => evs ++ (act.stop failStopOracle).2
    | (.error _, evs) => evs

/-- The native events of a lifecycle: each completed round runs the
embedded `start` and `stop` on a succeeding native layer, then the ending
runs from the resulting inactive pipeline. The error branches are
unreachable for the succeeding oracles and contribute only their own
events. -/
def runRounds (pl : InactivePipeline) : List Round → Ending → List Ev
  | [], e => runEnding pl e
  | r :: rs, e =>
    match pl.start (r.cfg.map Config.mk) (okStartOracle r.prof) with
    | (.ok act, evs) =>
      match act.stop okStopOracle with
      | (.ok pl2, evs2) => evs ++ evs2 ++ runRounds pl2 rs e
      | (.error _, evs2) => evs ++ evs2
    | (.error _, evs) => evs

/-- All native events over a pipeline value's whole lifetime. -/
def runLifecycle (pl : InactivePipeline) (lc : Lifecycle) : List Ev :=
  runRounds pl lc.rounds lc.ending

/-- The handle owned through an optional config argument. -/
def cfgOwned : Option Nat → List Handle
  | none => []
  | some c => [.config c]

/-- The handles a completed round brings into the pipeline's ownership: the
config passed to `start` (if any) and the profile produced by it. -/
def roundOwned (r : Round) : List Handle :=
  cfgOwned r.cfg ++ [.profile r.prof]

/-- The handles the ending brings into the pipeline's ownership. -/
def endingOwned : Ending → List Handle
  | .dropInactive => []
  | .startFail cfg => cfgOwned cfg
  | .startOkDropActive cfg prof => cfgOwned cfg ++ [.profile prof]
  | .startOkStopFail cfg prof => cfgOwned cfg ++ [.profile prof]

/-- Every handle owned at some point during a lifecycle of a pipeline with
pipeline address `p` and context address `ctx`. -/
def lifecycleOwned (p ctx : Nat) (lc : Lifecycle) : List Handle :=
  .pipeline p :: .context ctx ::
    ((lc.rounds.map roundOwned).flatten ++ endingOwned lc.ending)

/-!
Theorems settling the claims. Helper lemmas come first, then one theorem
per claim (with a witness or counterexample where called for).
-/

/-- The default timeout's millisecond count fits in a `c_uint`, so the
truncating cast leaves it unchanged. -/
theorem c_uint_of_default :
    c_uint_of DEFAULT_TIMEOUT.as_millis = DEFAULT_TIMEOUT.as_millis := by
  decide

/-- An unbounded wait absorbs any run of native timeout responses: over a
response list made of timeouts followed by a successful response, the loop
returns the eventual frame, calling the native wait once per response with
the same millisecond bound each time. -/
theorem waitLoop_none_absorbs_timeouts (p ms : Nat) (pre : List WaitResp)
    (hpre : ∀ r ∈ pre, ∃ d, r.err = some (RsError.timeout d))
    (good : WaitResp) (hok : good.err = none) (rest : List WaitResp) :
    waitLoop p none ms (pre ++ good :: rest)
    = (some (.ok good.frame),
       List.replicate (pre.length + 1) (Ev.callWait p ms)) := by
  induction pre with
  | nil =>
    obtain ⟨gf, ge⟩ := good
    cases hok
    rfl
  | cons r pre ih =>
    obtain ⟨d, hd⟩ := hpre r (List.mem_cons_self r pre)
    obtain ⟨rf, re⟩ := r
    cases hd
    have ih2 := ih (fun r hr => hpre r (List.mem_cons_of_mem _ hr))
    simp only [List.cons_append, waitLoop, List.append_eq, ih2,
      List.replicate_succ, List.length_cons]

/-- C2: for every call `Active::wait(None)`, the default bound
`DEFAULT_TIMEOUT` is the millisecond bound passed to every native wait
call, and native timeout errors are absorbed by retrying: on a native layer
that reports a timeout any number of times and then succeeds, `wait(None)`
returns the eventual frame (in particular it never returns
`Error::Timeout`). -/
theorem wait_none_retries_and_passes_default (self : ActivePipeline)
    (pre : List WaitResp)
    (hpre : ∀ r ∈ pre, ∃ d, r.err = some (RsError.timeout d))
    (good : WaitResp) (hok : good.err = none) (rest : List WaitResp) :
    self.wait none (pre ++ good :: rest)
    = (some (.ok good.frame),
       List.replicate (pre.length + 1)
         (Ev.callWait self.ptr DEFAULT_TIMEOUT.as_millis)) := by
  rw [ActivePipeline.wait]
  simp only [Option.getD_none]
  rw [c_uint_of_default]
  exact waitLoop_none_absorbs_timeouts self.ptr DEFAULT_TIMEOUT.as_millis
    pre hpre good hok rest

/-- Witness for C2: a native layer that reports a timeout once and then
returns frame 7 makes `wait(None)` return frame 7 after two native calls,
each with the default 15000 ms bound. -/
theorem wait_none_retries_witness :
    ActivePipeline.wait ⟨1, ⟨2⟩, ⟨⟨3⟩, none⟩⟩ none
      [⟨0, some (.timeout 4)⟩, ⟨7, none⟩]
    = (some (.ok 7), [Ev.callWait 1 15000, Ev.callWait 1 15000]) := by
  have h := wait_none_retries_and_passes_default ⟨1, ⟨2⟩, ⟨⟨3⟩, none⟩⟩
    [⟨0, some (.timeout 4)⟩]
    (by
      intro r hr
      simp only [List.mem_singleton] at hr
      subst hr
      exact ⟨4, rfl⟩)
    ⟨7, none⟩ rfl []
  simpa [List.replicate, DEFAULT_TIMEOUT, Duration.as_millis,
    RS2_DEFAULT_TIMEOUT] using h

/-- Counterexample for C3: the duration is not passed verbatim — the code
casts `d.as_millis()` with `as c_uint`, which truncates modulo `2 ^ 32`. A
wait bound of `2 ^ 32` milliseconds reaches the native call as 0. -/
theorem wait_some_not_verbatim :
    (ActivePipeline.wait ⟨1, ⟨2⟩, ⟨⟨3⟩, none⟩⟩ (some ⟨2 ^ 32⟩)
      [⟨0, some (.timeout 0)⟩]).2 = [Ev.callWait 1 0]
    ∧ (0 : Nat) ≠ 2 ^ 32 := by
  exact ⟨by decide, by decide⟩

/-- C3 (amended): for every call `Active::wait(Some(d))`, the millisecond
count of `d` reduced modulo `2 ^ 32` (the `as c_uint` cast; the identity
whenever `d` is below `2 ^ 32` milliseconds) is passed to the native wait
call, and a native timeout error is surfaced as `Error::Timeout` after a
single native call, without retrying. -/
theorem wait_some_surfaces_timeout (self : ActivePipeline) (d : Duration)
    (frame diag : Nat) (rest : List WaitResp) :
    self.wait (some d) (⟨frame, some (.timeout diag)⟩ :: rest)
    = (some (.error (.timeout diag)),
       [Ev.callWait self.ptr (c_uint_of d.as_millis)]) := rfl

/-- C4: `Active::try_wait()` returns the checker's error when the native
poll call fails; otherwise the native boolean flag decides the result —
`Ok(None)` on a zero flag, `Ok(Some(frame))` wrapping the returned frame
handle on any nonzero flag. -/
theorem try_wait_poll_flag (self : ActivePipeline) (resp : PollResp) :
    (∀ e, resp.err = some e →
      self.try_wait resp = (.error e, [Ev.callPoll self.ptr]))
    ∧ (resp.err = none → resp.ret = 0 →
      self.try_wait resp = (.ok none, [Ev.callPoll self.ptr]))
    ∧ (resp.err = none → resp.ret ≠ 0 →
      self.try_wait resp = (.ok (some resp.frame), [Ev.callPoll self.ptr])) := by
  obtain ⟨err, ret, frame⟩ := resp
  refine ⟨?_, ?_, ?_⟩
  · intro e he
    cases he
    rfl
  · intro he hr
    cases he
    cases hr
    rfl
  · intro he hr
    cases he
    simp [ActivePipeline.try_wait, hr]

/-- Witness for C4: with an empty error slot and flag 1, `try_wait` returns
`Ok(Some(9))` for the frame handle 9 the native poll wrote. -/
theorem try_wait_poll_flag_witness :
    ActivePipeline.try_wait ⟨1, ⟨2⟩, ⟨⟨3⟩, none⟩⟩ ⟨none, 1, 9⟩
    = (.ok (some 9), [Ev.callPoll 1]) :=
  (try_wait_poll_flag ⟨1, ⟨2⟩, ⟨⟨3⟩, none⟩⟩ ⟨none, 1, 9⟩).2.2 rfl (by decide)

/-- C5: `Inactive::start(config)` calls the with-config native start
exactly when `config` is `Some` (passing that config's handle) and the
plain native start when it is `None`; on success it returns an active
pipeline around the same pipeline and context handles whose state wraps
the profile handle returned by the native start together with the supplied
config; on native failure it returns the error and the pipeline, context
and config handles are each destroyed exactly once by the normal
destructors. -/
theorem start_dispatch_and_teardown (self : InactivePipeline)
    (config : Option Config) (native : StartOracle) :
    (∀ conf prof, config = some conf →
      native.start_with_config self.ptr conf.ptr = .ok prof →
      self.start config native
      = (.ok { ptr := self.ptr, context := self.context,
               state := { profile := ⟨prof⟩, config := some conf } },
         [.callStartWithConfig self.ptr conf.ptr]))
    ∧ (∀ prof, config = none →
      native.start self.ptr = .ok prof →
      self.start config native
      = (.ok { ptr := self.ptr, context := self.context,
               state := { profile := ⟨prof⟩, config := none } },
         [.callStart self.ptr]))
    ∧ (∀ conf e, config = some conf →
      native.start_with_config self.ptr conf.ptr = .error e →
      (self.start config native).1 = .error e
      ∧ (self.start config native).2
        = [.callStartWithConfig self.ptr conf.ptr,
           .destroy (.config conf.ptr), .destroy (.pipeline self.ptr),
           .destroy (.context self.context.ptr)])
    ∧ (∀ e, config = none →
      native.start self.ptr = .error e →
      (self.start config native).1 = .error e
      ∧ (self.start config native).2
        = [.callStart self.ptr, .destroy (.pipeline self.ptr),
           .destroy (.context self.context.ptr)]) := by
  obtain ⟨p, ⟨cp⟩⟩ := self
  refine ⟨?_, ?_, ?_, ?_⟩
  · intro conf prof hc hn
    cases hc
    simp [InactivePipeline.start, hn, InactivePipeline.into_raw_parts,
      Context.unsafe_clone, Context.into_raw, Context.from_raw,
      PipelineProfile.from_raw]
  · intro prof hc hn
    cases hc
    simp [InactivePipeline.start, hn, InactivePipeline.into_raw_parts,
      Context.unsafe_clone, Context.into_raw, Context.from_raw,
      PipelineProfile.from_raw]
  · intro conf e hc hn
    cases hc
    simp [InactivePipeline.start, hn, Config.dropEvents,
      InactivePipeline.dropEvents, Context.dropEvents]
  · intro e hc hn
    cases hc
    simp [InactivePipeline.start, hn, InactivePipeline.dropEvents,
      Context.dropEvents]

/-- Witness for C5: a successful with-config start on handles
(pipeline 1, context 2, config 3) with native profile 4 produces the
active pipeline owning all four, after exactly one with-config native
start call. -/
theorem start_dispatch_witness :
    InactivePipeline.start ⟨1, ⟨2⟩⟩ (some ⟨3⟩) (okStartOracle 4)
    = (.ok ⟨1, ⟨2⟩, ⟨⟨4⟩, some ⟨3⟩⟩⟩, [Ev.callStartWithConfig 1 3]) :=
  (start_dispatch_and_teardown ⟨1, ⟨2⟩⟩ (some ⟨3⟩) (okStartOracle 4)).1
    ⟨3⟩ 4 rfl rfl

/-- C6: when the native stop call succeeds, `Active::stop()` issues exactly
the destroy of the owned profile handle and (if present) the owned config
handle, and returns an inactive pipeline holding the very same pipeline
handle and context handle the active pipeline held; nothing else is
destroyed or changed. -/
theorem stop_ok_moves_handles (self : ActivePipeline) (native : StopOracle)
    (h : native self.ptr = none) :
    self.stop native
    = (.ok { ptr := self.ptr, context := self.context },
       .callStop self.ptr ::
         (.destroy (.profile self.state.profile.ptr) ::
           (self.state.config.map fun conf => .destroy (.config conf.ptr)).toList)) := by
  obtain ⟨p, ⟨cp⟩, ⟨⟨pr⟩, cfg⟩⟩ := self
  cases cfg <;>
    simp_all [ActivePipeline.stop, ActivePipeline.into_raw_parts,
      Active.into_raw_parts, Active.from_raw_parts, Active.dropEvents,
      PipelineProfile.from_raw, PipelineProfile.dropEvents,
      Config.dropEvents, Context.unsafe_clone, Context.into_raw,
      Context.from_raw]

/-- Witness for C6: stopping the active pipeline (pipeline 1, context 2,
profile 4, config 3) on a succeeding native stop destroys profile 4 and
config 3 and returns the inactive pipeline still holding pipeline 1 and
context 2. -/
theorem stop_ok_moves_handles_witness :
    ActivePipeline.stop ⟨1, ⟨2⟩, ⟨⟨4⟩, some ⟨3⟩⟩⟩ okStopOracle
    = (.ok ⟨1, ⟨2⟩⟩,
       [Ev.callStop 1, Ev.destroy (.profile 4), Ev.destroy (.config 3)]) := by
  have h := stop_ok_moves_handles ⟨1, ⟨2⟩, ⟨⟨4⟩, some ⟨3⟩⟩⟩ okStopOracle rfl
  simpa using h

/-- C10: when the native stop call fails, `Active::stop()` returns that
error, produces no inactive pipeline, and the consumed pipeline is torn
down entirely by the normal drops — the pipeline handle, context handle,
profile handle, and any owned config handle are each destroyed exactly
once, and no config handle is destroyed when none was owned. -/
theorem stop_err_teardown (self : ActivePipeline) (native : StopOracle)
    (e : RsError) (h : native self.ptr = some e) :
    (self.stop native).1 = .error e
    ∧ (self.stop native).2.count (.destroy (.pipeline self.ptr)) = 1
    ∧ (self.stop native).2.count (.destroy (.context self.context.ptr)) = 1
    ∧ (self.stop native).2.count (.destroy (.profile self.state.profile.ptr)) = 1
    ∧ (∀ conf, self.state.config = some conf →
        (self.stop native).2.count (.destroy (.config conf.ptr)) = 1)
    ∧ (self.state.config = none →
        ∀ c, Ev.destroy (.config c) ∉ (self.stop native).2) := by
  obtain ⟨p, ⟨cp⟩, ⟨⟨pr⟩, cfg⟩⟩ := self
  cases cfg <;>
    simp_all [ActivePipeline.stop, ActivePipeline.dropEvents,
      Active.dropEvents, PipelineProfile.dropEvents, Config.dropEvents,
      Context.dropEvents, List.count_cons, List.count_nil]

/-- Witness for C10: a failing native stop on the active pipeline
(pipeline 1, context 2, profile 4, config 3) surfaces the error and each of
the four owned handles is destroyed exactly once. -/
theorem stop_err_teardown_witness :
    (ActivePipeline.stop ⟨1, ⟨2⟩, ⟨⟨4⟩, some ⟨3⟩⟩⟩ failStopOracle).1
      = .error (.nativeCall 0)
    ∧ (ActivePipeline.stop ⟨1, ⟨2⟩, ⟨⟨4⟩, some ⟨3⟩⟩⟩
        failStopOracle).2.count (.destroy (.pipeline 1)) = 1
    ∧ (ActivePipeline.stop ⟨1, ⟨2⟩, ⟨⟨4⟩, some ⟨3⟩⟩⟩
        failStopOracle).2.count (.destroy (.context 2)) = 1
    ∧ (ActivePipeline.stop ⟨1, ⟨2⟩, ⟨⟨4⟩, some ⟨3⟩⟩⟩
        failStopOracle).2.count (.destroy (.profile 4)) = 1
    ∧ (ActivePipeline.stop ⟨1, ⟨2⟩, ⟨⟨4⟩, some ⟨3⟩⟩⟩
        failStopOracle).2.count (.destroy (.config 3)) = 1 := by
  have h := stop_err_teardown ⟨1, ⟨2⟩, ⟨⟨4⟩, some ⟨3⟩⟩⟩ failStopOracle
    (.nativeCall 0) rfl
  exact ⟨h.1, h.2.1, h.2.2.1, h.2.2.2.1, h.2.2.2.2.1 ⟨3⟩ rfl⟩

/-- C7: `start_async` and `start` agree on every inactive pipeline, every
config argument and every native response: the same native call is made
with the same raw arguments, the same error is returned on native failure
(with the same destructor teardown), and on success the same active
pipeline — same pipeline, context and profile handles and the same config
ownership — is produced. They differ only in the execution context that
performs the blocking call, which carries no semantics here. -/
theorem start_async_equiv_start (self : InactivePipeline)
    (config : Option Config) (native : StartOracle) :
    self.start_async config native = self.start config native := by
  obtain ⟨p, ⟨cp⟩⟩ := self
  cases config with
  | none =>
    cases hn : native.start p <;>
      simp [InactivePipeline.start, InactivePipeline.start_async, hn]
  | some conf =>
    cases hn : native.start_with_config p conf.ptr <;>
      simp [InactivePipeline.start, InactivePipeline.start_async, hn,
        Config.dropEvents]

/-- The spawned loop of `wait_async` computes exactly what the synchronous
wait loop computes, response for response. -/
theorem waitAsyncLoop_eq_waitLoop (p : Nat) (timeout : Option Duration)
    (ms : Nat) (l : List WaitResp) :
    waitAsyncLoop p timeout ms l = waitLoop p timeout ms l := by
  induction l with
  | nil => rfl
  | cons r rest ih =>
    obtain ⟨rf, re⟩ := r
    cases timeout with
    | none =>
      cases re with
      | none => rfl
      | some e =>
        cases e <;> simp [waitLoop, waitAsyncLoop, ih]
    | some d =>
      cases re with
      | none => rfl
      | some e => rfl

/-- C8: `Active::wait_async(timeout)` has the same semantics as
`Active::wait(timeout)` for every timeout argument and every sequence of
native responses: the same millisecond bound is passed to each native wait
call (the default bound when `timeout` is `None`), native timeout errors
are retried exactly when `timeout` is `None` and surfaced exactly when it
is `Some`, and the returned frame or error is the same; the async bridge
adds no observable behavior. -/
theorem wait_async_equiv_wait (self : ActivePipeline)
    (timeout : Option Duration) (native : List WaitResp) :
    self.wait_async timeout native = self.wait timeout native := by
  cases timeout <;>
    simp [ActivePipeline.wait, ActivePipeline.wait_async,
      waitAsyncLoop_eq_waitLoop, DEFAULT_TIMEOUT, Duration.as_millis]

/-- Counterexample for C9: `Config::from_raw` does fail on a null handle —
it runs `NonNull::new(ptr).unwrap()`, which panics (modelled as `none`)
when the supplied address is 0, so it is not true that every handle value
is wrapped unvalidated. -/
theorem from_raw_null_fails : Config.from_raw 0 = none := rfl

/-- C9 (amended): `Config::from_raw(handle)` validates only that the handle
is non-null (the `NonNull::new(..).unwrap()` panics on null): for every
non-null handle value it returns a `Config` wrapping exactly that handle,
relying on the caller for validity and unique ownership without further
checks. -/
theorem from_raw_wraps_nonnull (ptr : Nat) (h : ptr ≠ 0) :
    Config.from_raw ptr = some ⟨ptr⟩ := by
  simp [Config.from_raw, h]

/-- Witness for C9 (amended): the non-null address 5 is wrapped as-is. -/
theorem from_raw_wraps_nonnull_witness : Config.from_raw 5 = some ⟨5⟩ :=
  from_raw_wraps_nonnull 5 (by decide)

/-- The destroy calls of a lifecycle's ending account for the pipeline
handle, the context handle, and exactly the handles the ending brings into
ownership, each once per occurrence. -/
theorem runEnding_count (h : Handle) (pl : InactivePipeline) (e : Ending) :
    (runEnding pl e).count (Ev.destroy h)
    = (Handle.pipeline pl.ptr :: Handle.context pl.context.ptr ::
        endingOwned e).count h := by
  obtain ⟨p, ⟨cp⟩⟩ := pl
  cases e with
  | dropInactive =>
    simp [runEnding, InactivePipeline.dropEvents, Context.dropEvents,
      endingOwned, List.count_cons]
  | startFail cfg =>
    cases cfg <;>
      simp [runEnding, endingOwned, cfgOwned, InactivePipeline.start,
        failStartOracle, Config.dropEvents, InactivePipeline.dropEvents,
        Context.dropEvents, List.count_cons] <;>
      omega
  | startOkDropActive cfg prof =>
    cases cfg <;>
      simp [runEnding, endingOwned, cfgOwned, InactivePipeline.start,
        okStartOracle, InactivePipeline.into_raw_parts, Context.unsafe_clone,
        Context.into_raw, Context.from_raw, PipelineProfile.from_raw,
        ActivePipeline.dropEvents, Active.dropEvents,
        PipelineProfile.dropEvents, Config.dropEvents, Context.dropEvents,
        List.count_cons] <;>
      omega
  | startOkStopFail cfg prof =>
    cases cfg <;>
      simp [runEnding, endingOwned, cfgOwned, InactivePipeline.start,
        okStartOracle, failStopOracle, ActivePipeline.stop,
        InactivePipeline.into_raw_parts, Context.unsafe_clone,
        Context.into_raw, Context.from_raw, PipelineProfile.from_raw,
        ActivePipeline.dropEvents, Active.dropEvents,
        PipelineProfile.dropEvents, Config.dropEvents, Context.dropEvents,
        List.count_cons] <;>
      omega

/-- The destroy calls of a lifecycle account for each completed round's
config and profile handles plus the ending's destroys, each once per
occurrence. -/
theorem runRounds_count (h : Handle) (rs : List Round)
    (pl : InactivePipeline) (e : Ending) :
    (runRounds pl rs e).count (Ev.destroy h)
    = ((rs.map roundOwned).flatten).count h
      + (runEnding pl e).count (Ev.destroy h) := by
  induction rs generalizing pl with
  | nil => simp [runRounds]
  | cons r rs ih =>
    obtain ⟨p, ⟨cp⟩⟩ := pl
    obtain ⟨cfg, prof⟩ := r
    cases cfg <;>
      simp [runRounds, InactivePipeline.start, okStartOracle,
        okStopOracle, ActivePipeline.stop, ActivePipeline.into_raw_parts,
        Active.into_raw_parts, Active.from_raw_parts, Active.dropEvents,
        InactivePipeline.into_raw_parts, Context.unsafe_clone,
        Context.into_raw, Context.from_raw, PipelineProfile.from_raw,
        PipelineProfile.dropEvents, Config.dropEvents, roundOwned,
        cfgOwned, List.count_cons, List.count_append, ih] <;>
      omega

/-- C1: over every sequence of valid lifecycle transitions of one pipeline
value (any number of successful start/stop rounds followed by a drop in
either state, a failing start, or a failing stop), with all owned handles
distinct, exactly one native destroy call is issued for each handle the
value ever owns — pipeline, context, every config passed to a start, and
every profile a start produced — and no destroy is issued for any other
handle; moreover a `Config::into_raw`/`Config::from_raw` round-trip on the
same non-null address issues no destroy at the transfer and exactly one
destroy of that handle when the reconstituted value is dropped. -/
theorem lifecycle_destroys_each_handle_once (p ctx : Nat) (lc : Lifecycle)
    (hnd : (lifecycleOwned p ctx lc).Nodup) :
    (∀ h ∈ lifecycleOwned p ctx lc,
      (runLifecycle ⟨p, ⟨ctx⟩⟩ lc).count (Ev.destroy h) = 1)
    ∧ (∀ h, h ∉ lifecycleOwned p ctx lc →
      (runLifecycle ⟨p, ⟨ctx⟩⟩ lc).count (Ev.destroy h) = 0)
    ∧ (∀ c, c ≠ 0 →
      (Config.mk c).into_raw.2 = []
      ∧ (Config.from_raw (Config.mk c).into_raw.1).map Config.dropEvents
        = some [Ev.destroy (.config c)]) := by
  have key : ∀ h : Handle,
      (runLifecycle ⟨p, ⟨ctx⟩⟩ lc).count (Ev.destroy h)
      = (lifecycleOwned p ctx lc).count h := by
    intro h
    rw [runLifecycle, runRounds_count, runEnding_count]
    simp only [lifecycleOwned, List.count_cons, List.count_append]
    omega
  refine ⟨fun h hm => (key h).trans (List.count_eq_one_of_mem hnd hm),
    fun h hm => (key h).trans (List.count_eq_zero.mpr hm),
    fun c hc => ⟨rfl, ?_⟩⟩
  simp [Config.into_raw, Config.from_raw, hc, Config.dropEvents]

/-- Witness for C1: a lifecycle on distinct handles — pipeline 1, context
2, one completed round with config 3 producing profile 4, ending in a
start with config 5 producing profile 6 whose stop fails — destroys each
of the six owned handles exactly once and nothing else; and the config
round-trip on address 7 destroys handle 7 exactly once. -/
theorem lifecycle_destroys_each_handle_once_witness :
    (∀ h ∈ lifecycleOwned 1 2
        ⟨[⟨some 3, 4⟩], .startOkStopFail (some 5) 6⟩,
      (runLifecycle ⟨1, ⟨2⟩⟩
        ⟨[⟨some 3, 4⟩], .startOkStopFail (some 5) 6⟩).count (Ev.destroy h) = 1)
    ∧ (∀ h, h ∉ lifecycleOwned 1 2
        ⟨[⟨some 3, 4⟩], .startOkStopFail (some 5) 6⟩ →
      (runLifecycle ⟨1, ⟨2⟩⟩
        ⟨[⟨some 3, 4⟩], .startOkStopFail (some 5) 6⟩).count (Ev.destroy h) = 0)
    ∧ (∀ c, c ≠ 0 →
      (Config.mk c).into_raw.2 = []
      ∧ (Config.from_raw (Config.mk c).into_raw.1).map Config.dropEvents
        = some [Ev.destroy (.config c)]) :=
  lifecycle_destroys_each_handle_once 1 2
    ⟨[⟨some 3, 4⟩], .startOkStopFail (some 5) 6⟩ (by decide)

end RealSense
